import Mathlib

/-!
Verification development for the `wgpu-instancing` application
(`src/main.rs`, `src/window.rs`, `src/app/mod.rs`, `src/app/mesh.rs`,
`src/app/camera.rs`).

The GPU-facing code is embedded shallowly:

* a GPU buffer is modelled by the data uploaded to it at creation
  (`create_buffer_init` keeps the `contents` slice);
* command recording (`RenderPass` / `ComputePass` methods) is modelled by
  the list of commands the pass records, in recording order;
* a queue submission (`Queue::submit`) is an element of a submission trace,
  in submission order;
* `f32` scalars are modelled as exact rationals in the sections where the
  source only does finite arithmetic; a dedicated type `F` with the IEEE
  special values (NaN, plus/minus infinity) over exact rational finite
  values is used for the camera-inversion analysis, where NaN propagation
  is what decides the behaviour;
* a fallible Rust call (`Option::unwrap`, `Result` propagation with `?`)
  is modelled with `Option` / `Except`: a `none` result stands for a panic
  of `unwrap`.
-/

/-- A `[f32; 3]` triple with components in `α` (the scalar model). -/
abbrev Vec3 (α : Type) := α × α × α

/-- `wgpu::TextureFormat`, abstracted: the adapter picks an arbitrary base
format (represented by a numeric tag), and `add_srgb_suffix` marks the sRGB
variant of it. -/
structure TextureFormat where
  base : Nat
  srgb : Bool
  deriving DecidableEq

instance : Inhabited TextureFormat := ⟨⟨0, false⟩⟩

/-- `TextureFormat::add_srgb_suffix`: the sRGB variant of the format. -/
def TextureFormat.add_srgb_suffix (f : TextureFormat) : TextureFormat :=
  { f with srgb := true }

/-- `wgpu::SurfaceConfiguration` (the fields the app reads or writes). -/
structure SurfaceConfiguration where
  width : Nat
  height : Nat
  format : TextureFormat
  view_formats : List TextureFormat
  deriving DecidableEq

/-- The multisampled framebuffer texture view, modelled by the
`wgpu::TextureDescriptor` it was created from (`mod.rs`,
`create_multisampled_framebuffer`).  The constant fields
`dimension: D2` and `usage: RENDER_ATTACHMENT` are omitted. -/
structure TextureDescriptor where
  width : Nat
  height : Nat
  depth_or_array_layers : Nat
  mip_level_count : Nat
  sample_count : Nat
  format : TextureFormat
  deriving DecidableEq

/-- `mesh.rs`: `DefaultVertex3d { position: [f32; 3] }`. -/
structure DefaultVertex3d where
  position : Vec3 ℚ
  deriving DecidableEq

/-- `mod.rs`: `InstanceRepr { position: [f32; 3] }`; the per-instance data
cast into the positions buffer.  Instance data is kept as raw `Vec3 ℚ`
triples, exactly as `bytemuck::cast_slice` reinterprets them. -/
abbrev InstanceRepr := Vec3 ℚ

/-- `mesh.rs`: a mesh owns its two GPU buffers (modelled by their uploaded
contents) and the index element count. -/
structure Mesh where
  vertex_buffer : List DefaultVertex3d
  index_buffer : List Nat
  element_count : Nat
  deriving DecidableEq

/-- `Mesh::create`: uploads both slices as GPU buffers once and records
`element_count = indices.len()`.  No validation of the index values is
performed by the source. -/
def Mesh.create (vertices : List DefaultVertex3d) (indices : List Nat) : Mesh :=
  { vertex_buffer := vertices
    index_buffer := indices
    element_count := indices.length }

/-- `wgpu::IndexFormat`. -/
inductive IndexFormat where
  | uint16
  | uint32
  deriving DecidableEq

/-- The two bind groups the app creates (`mod.rs`): the camera uniform
group and the positions/velocities storage group. -/
inductive BindGroup where
  | cameraBindGroup
  | pvBindGroup
  deriving DecidableEq

/-- The contents bound to a vertex-input slot: slot 0 carries per-vertex
data, slot 1 per-instance data. -/
inductive VertexBufferContents where
  | vertexData (l : List DefaultVertex3d)
  | instanceData (l : List InstanceRepr)
  deriving DecidableEq

/-- `wgpu::PrimitiveTopology` (the variant the app uses, plus a catch-all). -/
inductive PrimitiveTopology where
  | TriangleList
  | otherTopology
  deriving DecidableEq

/-- `wgpu::FrontFace`. -/
inductive FrontFace where
  | Ccw
  | Cw
  deriving DecidableEq

/-- `wgpu::Face` (culling). -/
inductive Face where
  | Front
  | Back
  deriving DecidableEq

/-- A render pipeline, modelled by the descriptor fields `default_pipeline`
fixes (`mod.rs` lines 392-446). -/
structure RenderPipelineDesc where
  label : String
  topology : PrimitiveTopology
  front_face : FrontFace
  cull_mode : Option Face
  multisample_count : Nat
  color_format : TextureFormat
  deriving DecidableEq

/-- A compute pipeline, modelled by the descriptor fields `compute_pipeline`
fixes (`mod.rs` lines 364-390). -/
structure ComputePipelineDesc where
  label : String
  entry_point : String
  push_constant_range : Nat × Nat
  deriving DecidableEq

/-- `mod.rs`: `enum Pipeline { Render(..), Compute(..) }`. -/
inductive Pipeline where
  | Render (p : RenderPipelineDesc)
  | Compute (p : ComputePipelineDesc)
  deriving DecidableEq

/-- `mod.rs`: `enum PipelineSelector`. -/
inductive PipelineSelector where
  | Default
  | Compute
  | Custom (name : String)
  deriving DecidableEq

/-- The pipeline registry: `HashMap<PipelineSelector, Pipeline>` modelled as
an association list (insertion order preserved; keys are unique in the app). -/
def Pipeline.lookup (ps : List (PipelineSelector × Pipeline)) (sel : PipelineSelector) :
    Option Pipeline :=
  (ps.find? (fun p => p.1 == sel)).map (fun p => p.2)

/-- `mod.rs`: `WorldInfo { time: f32, delta: f32 }`. -/
structure WorldInfo where
  time : ℚ
  delta : ℚ
  deriving DecidableEq

/-- `mod.rs`: `ComputePushConstants { world_info: WorldInfo }`. -/
structure ComputePushConstants where
  world_info : WorldInfo
  deriving DecidableEq

/-- `std::mem::size_of::<ComputePushConstants>()`: two `f32` fields. -/
def ComputePushConstants.size_of : Nat := 8

/-- A command recorded into a render pass, in recording order. -/
inductive RenderCmd where
  | setPipeline (desc : RenderPipelineDesc)
  | setBindGroup (index : Nat) (group : BindGroup)
  | setVertexBuffer (slot : Nat) (buffer : VertexBufferContents)
  | setIndexBuffer (buffer : List Nat) (format : IndexFormat)
  | drawIndexed (indices : Nat × Nat) (base_vertex : Int) (instances : Nat × Nat)
  deriving DecidableEq

/-- Whether a render command is an (indexed) draw call. -/
def RenderCmd.isDrawIndexed : RenderCmd → Bool
  | .drawIndexed .. => true
  | _ => false

/-- The number of instances a render command draws: a `Range<u32>`
`a..b` contains `b - a` instances (`0` when the range is reversed, as in
Rust); non-draw commands draw none. -/
def RenderCmd.drawnInstanceCount : RenderCmd → Nat
  | .drawIndexed _ _ instances => instances.2 - instances.1
  | _ => 0

/-- A command recorded into a compute pass, in recording order. -/
inductive ComputeCmd where
  | setPipeline (desc : ComputePipelineDesc)
  | setBindGroup (index : Nat) (group : BindGroup)
  | setPushConstants (offset : Nat) (data : ComputePushConstants)
  | dispatchWorkgroups (x y z : Nat)
  deriving DecidableEq

/-- Whether a compute command is a workgroup dispatch. -/
def ComputeCmd.isDispatch : ComputeCmd → Bool
  | .dispatchWorkgroups .. => true
  | _ => false

/-- `Mesh::draw_instanced` (`mesh.rs` lines 80-91): binds the mesh's vertex
buffer at slot 0, the externally supplied instance buffer at slot 1, the
index buffer as `Uint32`, and issues one indexed draw of the full index
range `0..element_count` over the given instance range. -/
def Mesh.draw_instanced (m : Mesh) (instance_buffer : List InstanceRepr)
    (instances : Nat × Nat) : List RenderCmd :=
  [ .setVertexBuffer 0 (.vertexData m.vertex_buffer)
  , .setVertexBuffer 1 (.instanceData instance_buffer)
  , .setIndexBuffer m.index_buffer .uint32
  , .drawIndexed (0, m.element_count) 0 instances ]

/-- `Mesh::draw` (`mesh.rs` lines 93-99): binds the vertex and index
buffers and issues one indexed draw of the full index range with the single
instance range `0..1`. -/
def Mesh.draw (m : Mesh) : List RenderCmd :=
  [ .setVertexBuffer 0 (.vertexData m.vertex_buffer)
  , .setIndexBuffer m.index_buffer .uint32
  , .drawIndexed (0, m.element_count) 0 (0, 1) ]

/-- `wgpu::SurfaceError` (the classes `App::window_event` matches on). -/
inductive SurfaceError where
  | Lost
  | Outdated
  | OutOfMemory
  | Timeout
  | Other
  deriving DecidableEq

/-- One element of the per-frame GPU trace: a queue submission of a
recorded command buffer, or the surface present call. -/
inductive Submission where
  | compute (cmds : List ComputeCmd)
  | render (cmds : List RenderCmd)
  | present
  deriving DecidableEq

/-- `App` (`mod.rs` lines 66-93): the frame orchestrator's state.  GPU
handle fields without observable state (`window`, `instance`, `adapter`,
`device`, `queue`, the bind-group objects) are not modelled; the surface is
modelled by the configuration last applied to it with `Surface::configure`;
buffers are modelled by their uploaded contents.  The camera and its
controller are out-of-scope input plumbing (spec section 1); their numeric
output is analysed separately by the `Camera` development below. -/
structure App where
  surface : SurfaceConfiguration
  surface_config : SurfaceConfiguration
  multisample_framebuffer : TextureDescriptor
  pipelines : List (PipelineSelector × Pipeline)
  cube_mesh : Mesh
  positions : List InstanceRepr
  velocities : List InstanceRepr
  positions_buffer : List InstanceRepr
  velocities_buffer : List InstanceRepr
  time : ℚ
  last_delta : ℚ

/-- `App::DIMENSIONS` (`mod.rs` line 96). -/
def App.DIMENSIONS : Nat × Nat × Nat := (1024, 1024, 4)

/-- `App::WORKGROUP_DIMS` (`mod.rs` line 97). -/
def App.WORKGROUP_DIMS : Nat × Nat × Nat := (8, 8, 1)

/-- `App::OBJECT_COUNT = DIMENSIONS.0 * DIMENSIONS.1 * DIMENSIONS.2`. -/
def App.OBJECT_COUNT : Nat :=
  App.DIMENSIONS.1 * App.DIMENSIONS.2.1 * App.DIMENSIONS.2.2

/-- `App::MULTISAMPLE_SAMPLES` (`mod.rs` line 99). -/
def App.MULTISAMPLE_SAMPLES : Nat := 8

/-- The workgroup grid `App::update` dispatches (`mod.rs` lines 480-484):
component-wise truncating `u32` division of the particle grid by the
workgroup dimensions. -/
def App.dispatch_grid (dims wg : Nat × Nat × Nat) : Nat × Nat × Nat :=
  (dims.1 / wg.1, dims.2.1 / wg.2.1, dims.2.2 / wg.2.2)

/-- `App::create_multisampled_framebuffer` (`mod.rs` lines 116-140): a
fresh 2D texture sized to the surface configuration, with the given sample
count and the configuration's first view format (`config.view_formats[0]`,
which the app always populates in `App::new`). -/
def App.create_multisampled_framebuffer (config : SurfaceConfiguration)
    (sample_count : Nat) : TextureDescriptor :=
  { width := config.width
    height := config.height
    depth_or_array_layers := 1
    mip_level_count := 1
    sample_count := sample_count
    format := config.view_formats.headI }

/-- `App::generate_random_vectors` (`mod.rs` lines 101-114): `count` draws
from the thread RNG, modelled by an oracle `rng`; only the element count is
relevant to the claims, not the sampled values. -/
def App.generate_random_vectors (count : Nat) (rng : Nat → Vec3 ℚ) : List (Vec3 ℚ) :=
  (List.range count).map rng

/-- The cube vertices `App::new` passes to `Mesh::create`
(`mod.rs` lines 184-194). -/
def App.cube_vertices : List DefaultVertex3d :=
  [ ⟨(-(1/2), -(1/2), -(1/2))⟩, ⟨(1/2, -(1/2), -(1/2))⟩
  , ⟨(1/2, -(1/2), 1/2)⟩, ⟨(-(1/2), -(1/2), 1/2)⟩
  , ⟨(-(1/2), 1/2, -(1/2))⟩, ⟨(1/2, 1/2, -(1/2))⟩
  , ⟨(1/2, 1/2, 1/2)⟩, ⟨(-(1/2), 1/2, 1/2)⟩ ]

/-- The cube indices `App::new` passes to `Mesh::create`
(`mod.rs` lines 195-219): 12 triangles, two per face. -/
def App.cube_indices : List Nat :=
  [ 0, 1, 2, 0, 2, 3
  , 4, 6, 5, 4, 7, 6
  , 0, 5, 1, 0, 4, 5
  , 3, 2, 6, 3, 6, 7
  , 3, 4, 0, 3, 7, 4
  , 1, 6, 2, 1, 5, 6 ]

/-- `App::default_pipeline` (`mod.rs` lines 392-446): triangle list,
counter-clockwise front face, back-face culling, multisample count 8,
single color target at the given format. -/
def App.default_pipeline (color_format : TextureFormat) : RenderPipelineDesc :=
  { label := "default_pipeline"
    topology := .TriangleList
    front_face := .Ccw
    cull_mode := some .Back
    multisample_count := App.MULTISAMPLE_SAMPLES
    color_format := color_format }

/-- `App::compute_pipeline` (`mod.rs` lines 364-390): entry point
`compute_main`, push-constant range `0..size_of::<ComputePushConstants>()`. -/
def App.compute_pipeline : ComputePipelineDesc :=
  { label := "compute_pipeline"
    entry_point := "compute_main"
    push_constant_range := (0, ComputePushConstants.size_of) }

/-- `App::new` (`mod.rs` lines 142-362), with the environment abstracted:
`size` is the window's inner size, `default_config` is what
`Surface::get_default_config` returns for the adapter (its width and height
are then the requested ones), and the two oracles model the RNG.  The
constructor pushes the sRGB view format, configures the surface, builds the
multisample framebuffer, the cube mesh, both pipelines (keyed `Default`
then `Compute`), and uploads `OBJECT_COUNT` random positions and
velocities; `time` starts at `0.0` and `last_delta` at `0.001`. -/
def App.new (size : Nat × Nat) (default_config : SurfaceConfiguration)
    (position_rng velocity_rng : Nat → Vec3 ℚ) : App :=
  let surface_config0 : SurfaceConfiguration :=
    { default_config with width := size.1, height := size.2 }
  let view_format := surface_config0.format.add_srgb_suffix
  let surface_config : SurfaceConfiguration :=
    { surface_config0 with view_formats := surface_config0.view_formats ++ [view_format] }
  let positions := App.generate_random_vectors App.OBJECT_COUNT position_rng
  let velocities := App.generate_random_vectors App.OBJECT_COUNT velocity_rng
  { surface := surface_config
    surface_config := surface_config
    multisample_framebuffer :=
      App.create_multisampled_framebuffer surface_config App.MULTISAMPLE_SAMPLES
    pipelines :=
      [ (.Default, .Render (App.default_pipeline surface_config.format))
      , (.Compute, .Compute App.compute_pipeline) ]
    cube_mesh := Mesh.create App.cube_vertices App.cube_indices
    positions := positions
    velocities := velocities
    positions_buffer := positions
    velocities_buffer := velocities
    time := 0
    last_delta := 1/1000 }

/-- `App::update` (`mod.rs` lines 458-488): sets `last_delta`, records one
compute pass (pipeline via the registry's `Compute` key, the
positions/velocities bind group at index 0, the push-constant block with
the current time and delta, one workgroup dispatch of
`DIMENSIONS / WORKGROUP_DIMS`), and submits the recorded command buffer to
the queue.  The camera-controller call only mutates the out-of-scope
camera.  (In the source a missing registry key would panic; both keys are
always present in an `App::new` state, and on a non-`Compute` pipeline the
`if let` records no `set_pipeline`.) -/
def App.update (app : App) (delta : ℚ) : App × List Submission :=
  let app1 : App := { app with last_delta := delta }
  let pipeline_cmds : List ComputeCmd :=
    match Pipeline.lookup app1.pipelines .Compute with
    | some (.Compute p) => [.setPipeline p]
    | _ => []
  let push_constants : ComputePushConstants := ⟨⟨app1.time, app1.last_delta⟩⟩
  let g := App.dispatch_grid App.DIMENSIONS App.WORKGROUP_DIMS
  let cmds : List ComputeCmd := pipeline_cmds ++
    [ .setBindGroup 0 .pvBindGroup
    , .setPushConstants 0 push_constants
    , .dispatchWorkgroups g.1 g.2.1 g.2.2 ]
  (app1, [Submission.compute cmds])

/-- `App::render` (`mod.rs` lines 490-536): acquires the next surface
image (propagating any acquisition error untouched with `?`), records one
render pass (pipeline via the registry's `Default` key, the camera bind
group at index 0, the cube mesh drawn instanced over
`0..positions.len()` with the positions buffer as the instance source),
submits it, and presents.  The camera-uniform buffer write
(`update_buffers`) has no observable effect in this model; the camera
uniform itself is analysed by the `Camera` development below. -/
def App.render (app : App) (acquired : Except SurfaceError Unit) :
    Except SurfaceError (App × List Submission) :=
  match acquired with
  | .error e => .error e
  | .ok _ =>
    let pipeline_cmds : List RenderCmd :=
      match Pipeline.lookup app.pipelines .Default with
      | some (.Render p) => [.setPipeline p]
      | _ => []
    let cmds : List RenderCmd := pipeline_cmds ++
      [RenderCmd.setBindGroup 0 .cameraBindGroup] ++
      app.cube_mesh.draw_instanced app.positions_buffer (0, app.positions.length)
    .ok (app, [Submission.render cmds, Submission.present])

/-- `App::resize` (`mod.rs` lines 545-554): writes the new dimensions into
the surface configuration verbatim, re-applies the configuration to the
surface and rebuilds the multisample framebuffer from it.  Note the source
performs no clamping of the dimensions. -/
def App.resize (app : App) (new_size : Nat × Nat) : App :=
  let cfg : SurfaceConfiguration :=
    { app.surface_config with width := new_size.1, height := new_size.2 }
  { app with
      surface_config := cfg
      surface := cfg
      multisample_framebuffer :=
        App.create_multisampled_framebuffer cfg App.MULTISAMPLE_SAMPLES }

/-- One frame cycle as the spec defines it (section 4.3/8): `update(delta)`
followed by `render()`, with the submission traces of both concatenated in
the order the queue receives them. -/
def App.frame (app : App) (delta : ℚ) (acquired : Except SurfaceError Unit) :
    Except SurfaceError (App × List Submission) :=
  let s1 := App.update app delta
  match App.render s1.1 acquired with
  | .ok s2 => .ok (s2.1, s1.2 ++ s2.2)
  | .error e => .error e

/-- The window events `App::window_event` (`mod.rs` lines 579-624) matches
on.  A `RedrawRequested` carries the outcome of the surface-image
acquisition the triggered `render` call will observe.  The keyboard arm
(escape/fullscreen) and the camera-controller forwarding only touch
out-of-scope window state and are not modelled. -/
inductive WindowEvent where
  | CloseRequested
  | RedrawRequested (acquired : Except SurfaceError Unit)
  | Resized (new_size : Nat × Nat)
  | OtherEvent

/-- What one `App::window_event` call did: the state it left behind,
whether it told the event loop to exit, whether it requested another
redraw, how many times it called `render` during the call, the submissions
it enqueued and the log lines it emitted. -/
structure WindowEventOutcome where
  state : App
  exit_requested : Bool
  requested_redraw : Bool
  render_calls : Nat
  submissions : List Submission
  logs : List String

/-- `App::window_event` (`mod.rs` lines 579-624).  On `RedrawRequested` the
handler first requests the next redraw, then calls `render` exactly once
and classifies its error: `Lost`/`Outdated` reconfigure via `resize` with
the window's current inner size; `OutOfMemory` logs and exits the event
loop; `Timeout` and `Other` only log.  `Resized` reconfigures with the
event's size; `CloseRequested` exits the loop. -/
def App.window_event (app : App) (window_inner_size : Nat × Nat)
    (event : WindowEvent) : WindowEventOutcome :=
  match event with
  | .CloseRequested =>
    { state := app, exit_requested := true, requested_redraw := false
      render_calls := 0, submissions := [], logs := [] }
  | .RedrawRequested acquired =>
    match App.render app acquired with
    | .ok s =>
      { state := s.1, exit_requested := false, requested_redraw := true
        render_calls := 1, submissions := s.2, logs := [] }
    | .error .Lost =>
      { state := App.resize app window_inner_size, exit_requested := false
        requested_redraw := true, render_calls := 1, submissions := [], logs := [] }
    | .error .Outdated =>
      { state := App.resize app window_inner_size, exit_requested := false
        requested_redraw := true, render_calls := 1, submissions := [], logs := [] }
    | .error .OutOfMemory =>
      { state := app, exit_requested := true, requested_redraw := true
        render_calls := 1, submissions := []
        logs := ["OOM encountered. Shutting down."] }
    | .error .Timeout =>
      { state := app, exit_requested := false, requested_redraw := true
        render_calls := 1, submissions := [], logs := ["Surface timeout!"] }
    | .error .Other =>
      { state := app, exit_requested := false, requested_redraw := true
        render_calls := 1, submissions := [], logs := ["Unknown surface error."] }
  | .Resized new_size =>
    { state := App.resize app new_size, exit_requested := false
      requested_redraw := false, render_calls := 0, submissions := [], logs := [] }
  | .OtherEvent =>
    { state := app, exit_requested := false, requested_redraw := false
      render_calls := 0, submissions := [], logs := [] }

/-- A concrete surface configuration standing in for what
`Surface::get_default_config` returns at startup. -/
def sample_surface_config : SurfaceConfiguration :=
  { width := 1280, height := 720, format := ⟨0, false⟩, view_formats := [] }

/-- A concrete `App::new` state (window size 1280x720 as `window.rs`
creates it), used as the explicit input of counterexamples. -/
def sample_app : App :=
  App.new (1280, 720) sample_surface_config (fun _ => (0, 0, 0)) (fun _ => (0, 0, 0))

/-- Square-root interface for the scalar models of `f32`. -/
class Sqrt (α : Type) where
  sqrt : α → α

/-- Rational square root: exact whenever the argument is a ratio of perfect
squares, which covers every argument this development evaluates it at.
Models `f32::sqrt` on such inputs. -/
def ratSqrt (q : ℚ) : ℚ :=
  (Nat.sqrt q.num.toNat : ℚ) / (Nat.sqrt q.den : ℚ)

instance : Sqrt ℚ := ⟨ratSqrt⟩

/-- `cgmath` `Vector3::dot`. -/
def Vec3.dot [Add α] [Mul α] (a b : Vec3 α) : α :=
  a.1 * b.1 + a.2.1 * b.2.1 + a.2.2 * b.2.2

/-- `cgmath` `Vector3::cross`. -/
def Vec3.cross [Mul α] [Sub α] (a b : Vec3 α) : Vec3 α :=
  ( a.2.1 * b.2.2 - a.2.2 * b.2.1
  , a.2.2 * b.1 - a.1 * b.2.2
  , a.1 * b.2.1 - a.2.1 * b.1 )

/-- `cgmath` vector-times-scalar (componentwise). -/
def Vec3.scale [Mul α] (v : Vec3 α) (s : α) : Vec3 α :=
  (v.1 * s, v.2.1 * s, v.2.2 * s)

/-- `cgmath` `InnerSpace::magnitude2`. -/
def Vec3.magnitude2 [Add α] [Mul α] (v : Vec3 α) : α := Vec3.dot v v

/-- `cgmath` `InnerSpace::magnitude = sqrt(magnitude2)`. -/
def Vec3.magnitude [Add α] [Mul α] [Sqrt α] (v : Vec3 α) : α :=
  Sqrt.sqrt (Vec3.magnitude2 v)

/-- `cgmath` `InnerSpace::normalize`: `self * (1 / magnitude)`. -/
def Vec3.normalize [Add α] [Mul α] [Div α] [One α] [Sqrt α] (v : Vec3 α) : Vec3 α :=
  Vec3.scale v (1 / Vec3.magnitude v)

/-- A 4x4 matrix of scalars, row-major (`m RC` is row `R`, column `C`); the
mathematical layout of a `cgmath::Matrix4` (which stores columns). -/
structure M4 (α : Type) where
  m00 : α
  m01 : α
  m02 : α
  m03 : α
  m10 : α
  m11 : α
  m12 : α
  m13 : α
  m20 : α
  m21 : α
  m22 : α
  m23 : α
  m30 : α
  m31 : α
  m32 : α
  m33 : α
  deriving DecidableEq

/-- The 4x4 identity matrix. -/
def M4.identity [Zero α] [One α] : M4 α :=
  ⟨1, 0, 0, 0, 0, 1, 0, 0, 0, 0, 1, 0, 0, 0, 0, 1⟩

/-- Matrix product (row times column). -/
def M4.mul [Add α] [Mul α] (x y : M4 α) : M4 α :=
  ⟨ x.m00 * y.m00 + x.m01 * y.m10 + x.m02 * y.m20 + x.m03 * y.m30
  , x.m00 * y.m01 + x.m01 * y.m11 + x.m02 * y.m21 + x.m03 * y.m31
  , x.m00 * y.m02 + x.m01 * y.m12 + x.m02 * y.m22 + x.m03 * y.m32
  , x.m00 * y.m03 + x.m01 * y.m13 + x.m02 * y.m23 + x.m03 * y.m33
  , x.m10 * y.m00 + x.m11 * y.m10 + x.m12 * y.m20 + x.m13 * y.m30
  , x.m10 * y.m01 + x.m11 * y.m11 + x.m12 * y.m21 + x.m13 * y.m31
  , x.m10 * y.m02 + x.m11 * y.m12 + x.m12 * y.m22 + x.m13 * y.m32
  , x.m10 * y.m03 + x.m11 * y.m13 + x.m12 * y.m23 + x.m13 * y.m33
  , x.m20 * y.m00 + x.m21 * y.m10 + x.m22 * y.m20 + x.m23 * y.m30
  , x.m20 * y.m01 + x.m21 * y.m11 + x.m22 * y.m21 + x.m23 * y.m31
  , x.m20 * y.m02 + x.m21 * y.m12 + x.m22 * y.m22 + x.m23 * y.m32
  , x.m20 * y.m03 + x.m21 * y.m13 + x.m22 * y.m23 + x.m23 * y.m33
  , x.m30 * y.m00 + x.m31 * y.m10 + x.m32 * y.m20 + x.m33 * y.m30
  , x.m30 * y.m01 + x.m31 * y.m11 + x.m32 * y.m21 + x.m33 * y.m31
  , x.m30 * y.m02 + x.m31 * y.m12 + x.m32 * y.m22 + x.m33 * y.m32
  , x.m30 * y.m03 + x.m31 * y.m13 + x.m32 * y.m23 + x.m33 * y.m33 ⟩

/-- Determinant of a 3x3 matrix given row by row. -/
def det3 [Add α] [Mul α] [Sub α] (a b c d e f g h i : α) : α :=
  a * (e * i - f * h) - b * (d * i - f * g) + c * (d * h - e * g)

/-- `cgmath` `SquareMatrix::determinant` for 4x4: cofactor expansion along
the first row. -/
def M4.det [Add α] [Mul α] [Sub α] (m : M4 α) : α :=
  m.m00 * det3 m.m11 m.m12 m.m13 m.m21 m.m22 m.m23 m.m31 m.m32 m.m33
  - m.m01 * det3 m.m10 m.m12 m.m13 m.m20 m.m22 m.m23 m.m30 m.m32 m.m33
  + m.m02 * det3 m.m10 m.m11 m.m13 m.m20 m.m21 m.m23 m.m30 m.m31 m.m33
  - m.m03 * det3 m.m10 m.m11 m.m12 m.m20 m.m21 m.m22 m.m30 m.m31 m.m32

/-- The adjugate (transposed cofactor matrix): entry `(r, c)` is the signed
3x3 minor determinant obtained by deleting row `c` and column `r`.  These
are exactly the cofactors `cgmath`'s 4x4 `invert` computes. -/
def M4.adjugate [Add α] [Mul α] [Sub α] [Neg α] (m : M4 α) : M4 α :=
  ⟨ det3 m.m11 m.m12 m.m13 m.m21 m.m22 m.m23 m.m31 m.m32 m.m33
  , -det3 m.m01 m.m02 m.m03 m.m21 m.m22 m.m23 m.m31 m.m32 m.m33
  , det3 m.m01 m.m02 m.m03 m.m11 m.m12 m.m13 m.m31 m.m32 m.m33
  , -det3 m.m01 m.m02 m.m03 m.m11 m.m12 m.m13 m.m21 m.m22 m.m23
  , -det3 m.m10 m.m12 m.m13 m.m20 m.m22 m.m23 m.m30 m.m32 m.m33
  , det3 m.m00 m.m02 m.m03 m.m20 m.m22 m.m23 m.m30 m.m32 m.m33
  , -det3 m.m00 m.m02 m.m03 m.m10 m.m12 m.m13 m.m30 m.m32 m.m33
  , det3 m.m00 m.m02 m.m03 m.m10 m.m12 m.m13 m.m20 m.m22 m.m23
  , det3 m.m10 m.m11 m.m13 m.m20 m.m21 m.m23 m.m30 m.m31 m.m33
  , -det3 m.m00 m.m01 m.m03 m.m20 m.m21 m.m23 m.m30 m.m31 m.m33
  , det3 m.m00 m.m01 m.m03 m.m10 m.m11 m.m13 m.m30 m.m31 m.m33
  , -det3 m.m00 m.m01 m.m03 m.m10 m.m11 m.m13 m.m20 m.m21 m.m23
  , -det3 m.m10 m.m11 m.m12 m.m20 m.m21 m.m22 m.m30 m.m31 m.m32
  , det3 m.m00 m.m01 m.m02 m.m20 m.m21 m.m22 m.m30 m.m31 m.m32
  , -det3 m.m00 m.m01 m.m02 m.m10 m.m11 m.m12 m.m30 m.m31 m.m32
  , det3 m.m00 m.m01 m.m02 m.m10 m.m11 m.m12 m.m20 m.m21 m.m22 ⟩

/-- The matrix `cgmath`'s `invert` builds once the determinant test has
passed: every cofactor divided by the determinant (multiplication by the
reciprocal is modelled as division). -/
def M4.invertUnchecked [Add α] [Mul α] [Sub α] [Neg α] [Div α] (m : M4 α) : M4 α :=
  let det := M4.det m
  let adj := M4.adjugate m
  ⟨ adj.m00 / det, adj.m01 / det, adj.m02 / det, adj.m03 / det
  , adj.m10 / det, adj.m11 / det, adj.m12 / det, adj.m13 / det
  , adj.m20 / det, adj.m21 / det, adj.m22 / det, adj.m23 / det
  , adj.m30 / det, adj.m31 / det, adj.m32 / det, adj.m33 / det ⟩

/-- `cgmath` `SquareMatrix::invert`: `None` exactly when the computed
determinant compares equal to zero (an IEEE comparison for `f32`: a NaN
determinant compares unequal and the division goes ahead). -/
def M4.invert [Add α] [Mul α] [Sub α] [Neg α] [Div α] [Zero α] [BEq α]
    (m : M4 α) : Option (M4 α) :=
  if M4.det m == 0 then none else some (M4.invertUnchecked m)

/-- `cgmath` `Matrix4::look_to_lh(eye, dir, up)`: rows are the normalized
camera basis `s`, `u`, `f` with the translation `-eye . basis`. -/
def look_to_lh [Add α] [Mul α] [Sub α] [Neg α] [Div α] [Zero α] [One α] [Sqrt α]
    (eye dir up : Vec3 α) : M4 α :=
  let f := Vec3.normalize dir
  let s := Vec3.normalize (Vec3.cross up f)
  let u := Vec3.cross f s
  ⟨ s.1, s.2.1, s.2.2, -Vec3.dot eye s
  , u.1, u.2.1, u.2.2, -Vec3.dot eye u
  , f.1, f.2.1, f.2.2, -Vec3.dot eye f
  , 0, 0, 0, 1 ⟩

/-- `camera.rs`: `Camera` over the scalar model `α`. -/
structure Camera (α : Type) where
  eye : Vec3 α
  direction : Vec3 α
  up : Vec3 α
  near : α
  far : α
  aspect : α
  deriving DecidableEq

/-- `Camera::new(aspect)` (`camera.rs` lines 21-30). -/
def Camera.new (aspect : ℚ) : Camera ℚ :=
  { eye := (0, 0, 1), direction := (0, 0, 1), up := (0, 1, 0)
    near := 1/10, far := 40000, aspect := aspect }

/-- `Camera::view` (`camera.rs` lines 44-46). -/
def Camera.view [Add α] [Mul α] [Sub α] [Neg α] [Div α] [Zero α] [One α] [Sqrt α]
    (c : Camera α) : M4 α :=
  look_to_lh c.eye c.direction c.up

/-- `Camera::projection` (`camera.rs` lines 48-55): `cgmath::perspective`
with `fovy = pi/2`, whose cotangent of the half angle is exactly 1. -/
def Camera.projection [Add α] [Mul α] [Sub α] [Neg α] [Div α] [Zero α] [One α]
    (c : Camera α) (aspect : α) : M4 α :=
  let f : α := 1
  ⟨ f / aspect, 0, 0, 0
  , 0, f, 0, 0
  , 0, 0, (c.far + c.near) / (c.near - c.far), (1 + 1) * c.far * c.near / (c.near - c.far)
  , 0, 0, -1, 0 ⟩

/-- `camera.rs`: `CameraUniform` (three 4x4 matrices). -/
structure CameraUniform (α : Type) where
  view : M4 α
  inverse_view : M4 α
  projection : M4 α
  deriving DecidableEq

/-- `Camera::uniform` (`camera.rs` lines 57-65): `inverse_view` is
`view.invert().unwrap()`; the `unwrap` panic is modelled by `none`. -/
def Camera.uniform [Add α] [Mul α] [Sub α] [Neg α] [Div α] [Zero α] [One α]
    [Sqrt α] [BEq α] (c : Camera α) : Option (CameraUniform α) :=
  let view := Camera.view c
  (M4.invert view).map fun iv =>
    { view := view, inverse_view := iv, projection := Camera.projection c c.aspect }

/-- `f32` with its IEEE special values: finite values are carried exactly
as rationals (faithful whenever, as in every evaluation below, the source
computation stays within exactly-representable values), plus NaN and the
two infinities.  The negative zero is identified with zero; no operation
evaluated below distinguishes them. -/
inductive F where
  | fin (q : ℚ)
  | nan
  | pinf
  | ninf
  deriving DecidableEq

/-- IEEE negation. -/
def F.neg : F → F
  | fin q => fin (-q)
  | nan => nan
  | pinf => ninf
  | ninf => pinf

/-- IEEE addition: NaN propagates, opposite infinities give NaN. -/
def F.add : F → F → F
  | nan, _ => nan
  | _, nan => nan
  | pinf, ninf => nan
  | ninf, pinf => nan
  | pinf, _ => pinf
  | _, pinf => pinf
  | ninf, _ => ninf
  | _, ninf => ninf
  | fin a, fin b => fin (a + b)

/-- IEEE subtraction, as addition of the negation. -/
def F.sub (a b : F) : F := F.add a (F.neg b)

/-- IEEE multiplication: NaN propagates, zero times infinity is NaN. -/
def F.mul : F → F → F
  | nan, _ => nan
  | _, nan => nan
  | fin a, fin b => fin (a * b)
  | fin a, pinf => if a = 0 then nan else if 0 < a then pinf else ninf
  | pinf, fin a => if a = 0 then nan else if 0 < a then pinf else ninf
  | fin a, ninf => if a = 0 then nan else if 0 < a then ninf else pinf
  | ninf, fin a => if a = 0 then nan else if 0 < a then ninf else pinf
  | pinf, pinf => pinf
  | ninf, ninf => pinf
  | pinf, ninf => ninf
  | ninf, pinf => ninf

/-- IEEE division: NaN propagates, zero over zero is NaN, a nonzero finite
value over zero is a signed infinity. -/
def F.div : F → F → F
  | nan, _ => nan
  | _, nan => nan
  | fin a, fin b =>
      if b = 0 then (if a = 0 then nan else if 0 < a then pinf else ninf)
      else fin (a / b)
  | fin _, pinf => fin 0
  | fin _, ninf => fin 0
  | pinf, fin a => if 0 ≤ a then pinf else ninf
  | ninf, fin a => if 0 ≤ a then ninf else pinf
  | pinf, pinf => nan
  | pinf, ninf => nan
  | ninf, pinf => nan
  | ninf, ninf => nan

/-- IEEE square root: NaN for negative arguments, exact rational value
elsewhere (the development only evaluates it on perfect squares). -/
def F.sqrt : F → F
  | fin q => if q < 0 then nan else fin (ratSqrt q)
  | nan => nan
  | pinf => pinf
  | ninf => nan

/-- The IEEE `==` comparison: NaN compares unequal to everything,
including itself. -/
def F.beq : F → F → Bool
  | fin a, fin b => a == b
  | pinf, pinf => true
  | ninf, ninf => true
  | _, _ => false

instance : Neg F := ⟨F.neg⟩

instance : Add F := ⟨F.add⟩

instance : Sub F := ⟨F.sub⟩

instance : Mul F := ⟨F.mul⟩

instance : Div F := ⟨F.div⟩

instance : Sqrt F := ⟨F.sqrt⟩

instance : BEq F := ⟨F.beq⟩

instance : Zero F := ⟨F.fin 0⟩

instance : One F := ⟨F.fin 1⟩

/-- The exact `f32` interpretation of a rational-valued camera state: every
field is finite. -/
def Camera.toF (c : Camera ℚ) : Camera F :=
  { eye := (F.fin c.eye.1, F.fin c.eye.2.1, F.fin c.eye.2.2)
    direction := (F.fin c.direction.1, F.fin c.direction.2.1, F.fin c.direction.2.2)
    up := (F.fin c.up.1, F.fin c.up.2.1, F.fin c.up.2.2)
    near := F.fin c.near
    far := F.fin c.far
    aspect := F.fin c.aspect }

/-- A camera whose direction is parallel (equal) to its up vector, the
degenerate state C10 describes; otherwise the default camera state. -/
def parallel_camera : Camera ℚ :=
  { eye := (0, 0, 1), direction := (0, 1, 0), up := (0, 1, 0)
    near := 1/10, far := 40000, aspect := 16/9 }

/-- C1: when `render()` returns a surface error, `App::window_event` reacts
per error class: `Lost`/`Outdated` reconfigure the surface and multisample
target via `resize` with the last known window size and retry only on the
next frame (one `render` call, redraw re-requested, nothing submitted);
`OutOfMemory` terminates the run loop; `Timeout` and any other surface
error log and continue with the frame dropped. -/
theorem c1_surface_error_handling (app : App) (wsize : Nat × Nat) :
    App.window_event app wsize (.RedrawRequested (.error .Lost)) =
      { state := App.resize app wsize, exit_requested := false, requested_redraw := true
        render_calls := 1, submissions := [], logs := [] } ∧
    App.window_event app wsize (.RedrawRequested (.error .Outdated)) =
      { state := App.resize app wsize, exit_requested := false, requested_redraw := true
        render_calls := 1, submissions := [], logs := [] } ∧
    App.window_event app wsize (.RedrawRequested (.error .OutOfMemory)) =
      { state := app, exit_requested := true, requested_redraw := true
        render_calls := 1, submissions := []
        logs := ["OOM encountered. Shutting down."] } ∧
    App.window_event app wsize (.RedrawRequested (.error .Timeout)) =
      { state := app, exit_requested := false, requested_redraw := true
        render_calls := 1, submissions := [], logs := ["Surface timeout!"] } ∧
    App.window_event app wsize (.RedrawRequested (.error .Other)) =
      { state := app, exit_requested := false, requested_redraw := true
        render_calls := 1, submissions := [], logs := ["Unknown surface error."] } :=
  ⟨rfl, rfl, rfl, rfl, rfl⟩

/-- C2: in every frame cycle the compute command buffer recorded by
`update()` is submitted strictly before the render command buffer recorded
by `render()` of the same frame: the frame's submission trace is exactly
compute, then render, then present, the render pass reads the positions
buffer as its instance source, and every compute submission index is
strictly below every render submission index. -/
theorem c2_compute_submitted_before_render (app : App) (delta : ℚ) :
    ∃ a2 ccmds rcmds,
      App.frame app delta (.ok ()) =
        .ok (a2, [Submission.compute ccmds, Submission.render rcmds, Submission.present]) ∧
      RenderCmd.setVertexBuffer 1 (.instanceData app.positions_buffer) ∈ rcmds ∧
      (∀ (i j : Nat) (cc : List ComputeCmd) (rc : List RenderCmd),
        [Submission.compute ccmds, Submission.render rcmds, Submission.present][i]? =
          some (Submission.compute cc) →
        [Submission.compute ccmds, Submission.render rcmds, Submission.present][j]? =
          some (Submission.render rc) →
        i < j) := by
  refine ⟨_, _, _, rfl, ?_, ?_⟩
  · simp [Mesh.draw_instanced, App.update]
  · intro i j cc rc hi hj
    have hi0 : i = 0 := by
      rcases i with _ | _ | _ | i
      · rfl
      · exact absurd hi (by simp)
      · exact absurd hi (by simp)
      · exact absurd hi (by simp)
    have hj1 : j = 1 := by
      rcases j with _ | _ | _ | j
      · exact absurd hj (by simp)
      · rfl
      · exact absurd hj (by simp)
      · exact absurd hj (by simp)
    rw [hi0, hj1]
    exact Nat.zero_lt_one

/-- C3: whenever each workgroup dimension divides the corresponding grid
dimension exactly, the dispatched workgroup count times the workgroup
volume covers the particle count; for the configured `DIMENSIONS`
(1024, 1024, 4) and `WORKGROUP_DIMS` (8, 8, 1) the dispatch grid is
exactly (128, 128, 4) with zero remainder on all three axes, and
`update()` dispatches exactly that grid (one dispatch command). -/
theorem c3_dispatch_covers_particle_count :
    (∀ nx ny nz wx wy wz : Nat, wx ∣ nx → wy ∣ ny → wz ∣ nz →
      nx * ny * nz ≤
        (App.dispatch_grid (nx, ny, nz) (wx, wy, wz)).1 *
        (App.dispatch_grid (nx, ny, nz) (wx, wy, wz)).2.1 *
        (App.dispatch_grid (nx, ny, nz) (wx, wy, wz)).2.2 * (wx * wy * wz)) ∧
    App.dispatch_grid App.DIMENSIONS App.WORKGROUP_DIMS = (128, 128, 4) ∧
    App.DIMENSIONS.1 % App.WORKGROUP_DIMS.1 = 0 ∧
    App.DIMENSIONS.2.1 % App.WORKGROUP_DIMS.2.1 = 0 ∧
    App.DIMENSIONS.2.2 % App.WORKGROUP_DIMS.2.2 = 0 ∧
    (∀ (app : App) (delta : ℚ), ∃ cmds,
      (App.update app delta).2 = [Submission.compute cmds] ∧
      cmds.filter ComputeCmd.isDispatch = [.dispatchWorkgroups 128 128 4]) := by
  refine ⟨?_, by decide, by decide, by decide, by decide, ?_⟩
  · intro nx ny nz wx wy wz hx hy hz
    have hx1 : nx / wx * wx = nx := Nat.div_mul_cancel hx
    have hy1 : ny / wy * wy = ny := Nat.div_mul_cancel hy
    have hz1 : nz / wz * wz = nz := Nat.div_mul_cancel hz
    calc nx * ny * nz
        = (nx / wx * wx) * (ny / wy * wy) * (nz / wz * wz) := by rw [hx1, hy1, hz1]
      _ = nx / wx * (ny / wy) * (nz / wz) * (wx * wy * wz) := by ring
      _ ≤ _ := le_rfl
  · intro app delta
    refine ⟨_, rfl, ?_⟩
    rcases h : Pipeline.lookup { app with last_delta := delta }.pipelines .Compute with _ | p
    · simp [App.update, h, App.dispatch_grid, ComputeCmd.isDispatch,
        App.DIMENSIONS, App.WORKGROUP_DIMS]
    · cases p <;> simp [App.update, h, App.dispatch_grid, ComputeCmd.isDispatch,
        App.DIMENSIONS, App.WORKGROUP_DIMS]

/-- C4: a successful `render()` on a freshly constructed app submits
exactly one render command buffer (then presents), whose commands bind the
render pipeline first, the camera uniform bind group second, and end in the
single instanced draw over instance range `0..4194304` (the full particle
count, `OBJECT_COUNT = 1024*1024*4`), with the positions buffer bound at
the instance vertex-input slot; acquisition errors are the only failure
path of `render` and are propagated untouched. -/
theorem c4_render_single_instanced_draw (size : Nat × Nat)
    (default_config : SurfaceConfiguration) (prng vrng : Nat → Vec3 ℚ) :
    ∃ a2 rcmds,
      App.render (App.new size default_config prng vrng) (.ok ()) =
        .ok (a2, [Submission.render rcmds, Submission.present]) ∧
      rcmds.countP RenderCmd.isDrawIndexed = 1 ∧
      rcmds.getLast? = some (.drawIndexed (0, 36) 0 (0, 4194304)) ∧
      (∃ p, rcmds.take 2 = [.setPipeline p, .setBindGroup 0 .cameraBindGroup]) ∧
      RenderCmd.setVertexBuffer 1
        (.instanceData (App.new size default_config prng vrng).positions_buffer) ∈ rcmds ∧
      App.OBJECT_COUNT = 4194304 ∧
      (App.new size default_config prng vrng).positions.length = App.OBJECT_COUNT ∧
      (∀ e : SurfaceError,
        App.render (App.new size default_config prng vrng) (.error e) = .error e) := by
  have hlen : (App.new size default_config prng vrng).positions.length = App.OBJECT_COUNT := by
    simp [App.new, App.generate_random_vectors]
  refine ⟨App.new size default_config prng vrng,
    [ RenderCmd.setPipeline
        (App.default_pipeline (App.new size default_config prng vrng).surface_config.format)
    , .setBindGroup 0 .cameraBindGroup
    , .setVertexBuffer 0 (.vertexData App.cube_vertices)
    , .setVertexBuffer 1
        (.instanceData (App.new size default_config prng vrng).positions_buffer)
    , .setIndexBuffer App.cube_indices .uint32
    , .drawIndexed (0, 36) 0 (0, (App.new size default_config prng vrng).positions.length) ],
    rfl, rfl, ?_, ⟨_, rfl⟩, by simp, rfl, hlen, fun e => rfl⟩
  simp [hlen]
  rfl

/-- C5: `Mesh::draw` records one indexed draw of the full index range
`0..element_count` with the single instance range `0..1`, and
`Mesh::draw_instanced` with instance range `a..b` binds the supplied
instance buffer at vertex-input slot 1 and records one indexed draw of the
full index range drawing exactly `b - a` instances. -/
theorem c5_mesh_draw_contracts (m : Mesh) (instance_buffer : List InstanceRepr)
    (a b : Nat) :
    Mesh.draw m =
      [ .setVertexBuffer 0 (.vertexData m.vertex_buffer)
      , .setIndexBuffer m.index_buffer .uint32
      , .drawIndexed (0, m.element_count) 0 (0, 1) ] ∧
    (Mesh.draw m).countP RenderCmd.isDrawIndexed = 1 ∧
    ((Mesh.draw m).map RenderCmd.drawnInstanceCount).sum = 1 ∧
    Mesh.draw_instanced m instance_buffer (a, b) =
      [ .setVertexBuffer 0 (.vertexData m.vertex_buffer)
      , .setVertexBuffer 1 (.instanceData instance_buffer)
      , .setIndexBuffer m.index_buffer .uint32
      , .drawIndexed (0, m.element_count) 0 (a, b) ] ∧
    (Mesh.draw_instanced m instance_buffer (a, b)).countP RenderCmd.isDrawIndexed = 1 ∧
    ((Mesh.draw_instanced m instance_buffer (a, b)).map RenderCmd.drawnInstanceCount).sum
      = b - a := by
  refine ⟨rfl, rfl, ?_, rfl, rfl, ?_⟩ <;>
    simp [Mesh.draw, Mesh.draw_instanced, RenderCmd.drawnInstanceCount]

/-- C6 counterexample: `resize` does not clamp the requested dimensions to
at least 1x1 — resizing the sample app to `(0, 0)` leaves a surface
configuration with width and height 0, contradicting the claimed clamp. -/
theorem c6_counterexample :
    (App.resize sample_app (0, 0)).surface_config.width = 0 ∧
    (App.resize sample_app (0, 0)).surface_config.height = 0 ∧
    ¬ 1 ≤ (App.resize sample_app (0, 0)).surface_config.width := by
  refine ⟨rfl, rfl, ?_⟩
  decide

/-- C6 (amended): `resize` applies the requested dimensions to the surface
configuration exactly as given (no clamping), re-applies that configuration
to the surface, and rebuilds the multisample framebuffer from it with
matching width, height, the configured sample count 8 and the surface
configuration's view format. -/
theorem c6_resize_applies_requested_dimensions (app : App) (w h : Nat) :
    (App.resize app (w, h)).surface_config.width = w ∧
    (App.resize app (w, h)).surface_config.height = h ∧
    (App.resize app (w, h)).surface = (App.resize app (w, h)).surface_config ∧
    (App.resize app (w, h)).multisample_framebuffer =
      App.create_multisampled_framebuffer (App.resize app (w, h)).surface_config
        App.MULTISAMPLE_SAMPLES ∧
    (App.resize app (w, h)).multisample_framebuffer.width = w ∧
    (App.resize app (w, h)).multisample_framebuffer.height = h ∧
    (App.resize app (w, h)).multisample_framebuffer.sample_count
      = App.MULTISAMPLE_SAMPLES ∧
    (App.resize app (w, h)).multisample_framebuffer.format =
      (App.resize app (w, h)).surface_config.view_formats.headI :=
  ⟨rfl, rfl, rfl, rfl, rfl, rfl, rfl, rfl⟩

/-- C7: `resize` (the configure operation) is idempotent — applying it
twice with the same dimensions yields a state identical in every field
(surface configuration, applied surface state and multisample target
included) to applying it once. -/
theorem c7_resize_idempotent (app : App) (w h : Nat) :
    App.resize (App.resize app (w, h)) (w, h) = App.resize app (w, h) := rfl

/-- C8 counterexample: `Mesh::create` performs no bounds check, so a mesh
built from one vertex and the index list `[5]` stores the out-of-range
index 5, refuting the claim for arbitrary creation inputs. -/
theorem c8_counterexample :
    5 ∈ (Mesh.create [⟨(0, 0, 0)⟩] [5]).index_buffer ∧
    ¬ 5 < (Mesh.create [⟨(0, 0, 0)⟩] [5]).vertex_buffer.length := by
  decide

/-- C8 (amended): `Mesh::create` stores the caller's vertex and index data
verbatim (and `element_count = indices.len()`), so the index-bound
invariant holds exactly when the caller supplies indices below the vertex
count; the cube mesh the app builds at startup (8 vertices, 36 indices)
satisfies it: every stored index is strictly below 8. -/
theorem c8_indices_stored_verbatim :
    (∀ (vertices : List DefaultVertex3d) (indices : List Nat),
      (Mesh.create vertices indices).vertex_buffer = vertices ∧
      (Mesh.create vertices indices).index_buffer = indices ∧
      (Mesh.create vertices indices).element_count = indices.length) ∧
    (∀ (vertices : List DefaultVertex3d) (indices : List Nat),
      (∀ i ∈ indices, i < vertices.length) →
      ∀ i ∈ (Mesh.create vertices indices).index_buffer,
        i < (Mesh.create vertices indices).vertex_buffer.length) ∧
    (∀ i ∈ (Mesh.create App.cube_vertices App.cube_indices).index_buffer,
      i < (Mesh.create App.cube_vertices App.cube_indices).vertex_buffer.length) := by
  refine ⟨fun v ind => ⟨rfl, rfl, rfl⟩, fun v ind h => h, ?_⟩
  decide

@[simp] theorem F.neg_def (a : F) : -a = F.neg a := rfl

@[simp] theorem F.add_def (a b : F) : a + b = F.add a b := rfl

@[simp] theorem F.sub_def (a b : F) : a - b = F.sub a b := rfl

@[simp] theorem F.mul_def (a b : F) : a * b = F.mul a b := rfl

@[simp] theorem F.div_def (a b : F) : a / b = F.div a b := rfl

@[simp] theorem F.sqrt_def (a : F) : Sqrt.sqrt a = F.sqrt a := rfl

@[simp] theorem F.beq_def (a b : F) : (a == b) = F.beq a b := rfl

@[simp] theorem F.zero_def : (0 : F) = F.fin 0 := rfl

@[simp] theorem F.one_def : (1 : F) = F.fin 1 := rfl

@[simp] theorem ratSqrt_def (q : ℚ) : Sqrt.sqrt q = ratSqrt q := rfl

set_option maxHeartbeats 4000000 in
/-- The cofactor-matrix inverse `cgmath` computes is a genuine two-sided
matrix inverse whenever the determinant is nonzero (exact arithmetic). -/
theorem M4.invert_gives_inverse (m : M4 ℚ) (h : M4.det m ≠ 0) :
    M4.invert m = some (M4.invertUnchecked m) ∧
    M4.mul (M4.invertUnchecked m) m = M4.identity ∧
    M4.mul m (M4.invertUnchecked m) = M4.identity := by
  obtain ⟨m00, m01, m02, m03, m10, m11, m12, m13, m20, m21, m22, m23, m30, m31, m32, m33⟩ := m
  simp only [M4.det, det3] at h
  refine ⟨by simp [M4.invert, M4.det, det3, h], ?_, ?_⟩ <;>
    (simp only [M4.mul, M4.invertUnchecked, M4.adjugate, M4.det, det3, M4.identity,
      M4.mk.injEq]
     refine ⟨?_, ?_, ?_, ?_, ?_, ?_, ?_, ?_, ?_, ?_, ?_, ?_, ?_, ?_, ?_, ?_⟩ <;>
       (field_simp [h]
        ring))

/-- The view matrix of the default camera state, evaluated: its basis is
already orthonormal, so no irrational normalization occurs. -/
theorem view_default_eval (a : ℚ) :
    Camera.view (Camera.new a) =
      ⟨1, 0, 0, 0, 0, 1, 0, 0, 0, 0, 1, -1, 0, 0, 0, 1⟩ := by
  norm_num [Camera.view, Camera.new, look_to_lh, Vec3.normalize, Vec3.scale,
    Vec3.magnitude, Vec3.magnitude2, Vec3.dot, Vec3.cross, ratSqrt]

/-- The `f32` view matrix of the degenerate camera (direction parallel to
up): the `s` and `u` basis rows collapse to NaN. -/
theorem viewF_parallel_eval :
    Camera.view (Camera.toF parallel_camera) =
      ⟨F.nan, F.nan, F.nan, F.nan,
       F.nan, F.nan, F.nan, F.nan,
       F.fin 0, F.fin 1, F.fin 0, F.fin 0,
       F.fin 0, F.fin 0, F.fin 0, F.fin 1⟩ := by
  norm_num [Camera.view, Camera.toF, parallel_camera, look_to_lh, Vec3.normalize,
    Vec3.scale, Vec3.magnitude, Vec3.magnitude2, Vec3.dot, Vec3.cross,
    F.mul, F.add, F.sub, F.neg, F.div, F.sqrt, ratSqrt]
  exact ⟨rfl, rfl⟩

/-- The `f32` view matrix of the default camera state: finite, exact. -/
theorem viewF_default_eval :
    Camera.view (Camera.toF (Camera.new (16/9))) =
      ⟨F.fin 1, F.fin 0, F.fin 0, F.fin 0,
       F.fin 0, F.fin 1, F.fin 0, F.fin 0,
       F.fin 0, F.fin 0, F.fin 1, F.fin (-1),
       F.fin 0, F.fin 0, F.fin 0, F.fin 1⟩ := by
  norm_num [Camera.view, Camera.toF, Camera.new, look_to_lh, Vec3.normalize,
    Vec3.scale, Vec3.magnitude, Vec3.magnitude2, Vec3.dot, Vec3.cross,
    F.mul, F.add, F.sub, F.neg, F.div, F.sqrt, ratSqrt]
  exact ⟨rfl, rfl⟩

/-- C9: for every camera state whose view matrix has nonzero determinant,
`Camera::uniform` succeeds and its `inverse_view` field is exactly the
matrix inverse of its `view` field (two-sided product with `view` is the
identity), because it is computed directly as `view.invert().unwrap()`.
In this exact-arithmetic model the inverse is exact, hence in particular
within the claimed floating-point tolerance of 1e-5. -/
theorem c9_inverse_view_is_matrix_inverse (c : Camera ℚ)
    (hdet : M4.det (Camera.view c) ≠ 0) :
    ∃ u, Camera.uniform c = some u ∧
      u.view = Camera.view c ∧
      M4.mul u.inverse_view u.view = M4.identity ∧
      M4.mul u.view u.inverse_view = M4.identity := by
  obtain ⟨h0, h1, h2⟩ := M4.invert_gives_inverse (Camera.view c) hdet
  exact ⟨{ view := Camera.view c, inverse_view := M4.invertUnchecked (Camera.view c)
           projection := Camera.projection c c.aspect },
    by rw [Camera.uniform, h0]; rfl, rfl, h1, h2⟩

/-- C9 witness: the default camera state `Camera::new(16/9)` has an
invertible view matrix (determinant 1), and the theorem applies to it. -/
theorem c9_witness :
    M4.det (Camera.view (Camera.new (16/9))) ≠ 0 ∧
    ∃ u, Camera.uniform (Camera.new (16/9)) = some u ∧
      u.view = Camera.view (Camera.new (16/9)) ∧
      M4.mul u.inverse_view u.view = M4.identity ∧
      M4.mul u.view u.inverse_view = M4.identity :=
  ⟨by rw [view_default_eval]; norm_num [M4.det, det3],
   c9_inverse_view_is_matrix_inverse (Camera.new (16/9))
     (by rw [view_default_eval]; norm_num [M4.det, det3])⟩

/-- C10 counterexample: for the camera whose direction equals its up
vector, `uniform()` does not panic, contrary to the claim: the zero cross
product is normalized into NaN components, the view determinant is NaN,
the IEEE comparison `det == 0.0` is false, so `invert` returns `Some` and
the `unwrap` succeeds (returning a NaN-filled matrix). -/
theorem c10_counterexample :
    Camera.uniform (Camera.toF parallel_camera) ≠ none ∧
    parallel_camera.direction = parallel_camera.up ∧
    M4.det (Camera.view (Camera.toF parallel_camera)) = F.nan := by
  have hdet : M4.det (Camera.view (Camera.toF parallel_camera)) = F.nan := by
    rw [viewF_parallel_eval]; simp [M4.det, det3, F.mul, F.add, F.sub, F.neg]
  refine ⟨?_, rfl, hdet⟩
  simp [Camera.uniform, M4.invert, hdet, F.beq]

/-- C10 (amended): over the IEEE `f32` model, `Camera::uniform` panics
exactly when the computed view determinant compares equal to zero; for the
default camera state the determinant is 1 and `uniform` returns without
panicking, and for a camera whose direction is parallel to its up vector
the determinant is NaN — which also fails the zero test — so `uniform`
returns a NaN-filled uniform rather than panicking. -/
theorem c10_uniform_panics_iff_det_zero :
    (∀ c : Camera F, Camera.uniform c = none ↔
      (M4.det (Camera.view c) == 0) = true) ∧
    Camera.uniform (Camera.toF (Camera.new (16/9))) ≠ none ∧
    Camera.uniform (Camera.toF parallel_camera) ≠ none ∧
    M4.det (Camera.view (Camera.toF parallel_camera)) = F.nan ∧
    (F.nan == (0 : F)) = false := by
  have hdet : M4.det (Camera.view (Camera.toF parallel_camera)) = F.nan := by
    rw [viewF_parallel_eval]; simp [M4.det, det3, F.mul, F.add, F.sub, F.neg]
  have hdet1 : M4.det (Camera.view (Camera.toF (Camera.new (16/9)))) = F.fin 1 := by
    rw [viewF_default_eval]; norm_num [M4.det, det3, F.mul, F.add, F.sub, F.neg]
  refine ⟨?_, ?_, ?_, hdet, by simp [F.beq]⟩
  · intro c
    by_cases hb : (M4.det (Camera.view c) == (0 : F)) = true
    · simp [Camera.uniform, M4.invert, hb]
    · simp [Camera.uniform, M4.invert, hb]
  · simp [Camera.uniform, M4.invert, hdet1, F.beq]
  · simp [Camera.uniform, M4.invert, hdet, F.beq]
